import Mathlib

/-!
Verification development for the voice-interaction front end
(`voice_handler_v2.py`, `robot_state.py`).

The Python capture/VAD/control core is shallowly embedded: each relevant
method becomes an executable Lean function over explicit state.  Wall-clock
readings (`time.time()`), the playback flags and the RMS energy of the frame
that a `stream.read` would return are supplied per loop iteration as an
input `Tick`.

Numeric conventions: RMS energies, the noise floor and the detection
threshold are floats in the source and are modelled as rationals.
Wall-clock times are modelled as integer counts of milliseconds: the
source reads seconds-valued floats and converts with `* 1000` where it
needs milliseconds, so its second-valued constants appear here as their
millisecond equivalents (`1.0 s` debounce = 1000 ms, `0.5 s` poll
interval = 500 ms), and the cooldown test
`time.time()*1000 - _last_processing_time*1000 < POST_PROCESSING_COOLDOWN_MS`
becomes the same subtraction directly on millisecond readings.
-/

namespace VoiceV2

/-- Constant `FRAME_MS` from `VoiceHandlerV2`. -/
def FRAME_MS : Nat := 30

/-- Constant `MIN_SPEECH_MS` from `VoiceHandlerV2`. -/
def MIN_SPEECH_MS : Nat := 300

/-- Constant `END_SILENCE_MS` from `VoiceHandlerV2` (default of the environment
override, `int(os.getenv('END_SILENCE_MS', '400'))`). -/
def END_SILENCE_MS : Nat := 400

/-- Constant `MAX_RECORDING_MS` from `VoiceHandlerV2`. -/
def MAX_RECORDING_MS : Nat := 15000

/-- Constant `BASE_THRESHOLD` from `VoiceHandlerV2`. -/
def BASE_THRESHOLD : ℚ := 120

/-- Constant `POST_PROCESSING_COOLDOWN_MS` from `VoiceHandlerV2`. -/
def POST_PROCESSING_COOLDOWN_MS : ℤ := 1000

/-- The `_process_audio` debounce interval (`1.0` s in the source),
in milliseconds. -/
def DEBOUNCE_MS : ℤ := 1000

/-- The value `threshold = max(self.BASE_THRESHOLD, self.noise_floor * 2.5)`
computed once at the top of `_listen_loop` (Python's binary `max`,
written as an executable conditional). -/
def threshold (noise_floor : ℚ) : ℚ :=
  if noise_floor * 2.5 ≤ BASE_THRESHOLD then BASE_THRESHOLD else noise_floor * 2.5

/-- The shared playback/pause flags read by `_should_block_listening`:
`_playback_active`, `_playback_end_time`, and `robot_state.is_paused`. -/
structure Env where
  playback_active : Bool
  playback_end_time : ℤ
  is_paused : Bool
deriving DecidableEq

/-- Method `VoiceHandlerV2._should_block_listening`, as a function of the shared
flags and the current `time.time()` reading. -/
def should_block_listening (env : Env) (now : ℤ) : Bool :=
  env.playback_active || decide (now < env.playback_end_time) || env.is_paused

/-- One iteration's worth of environment input to the capture loop: the
shared flags, the `time.time()` reading, and the RMS energy of the frame
that `stream.read` would deliver if a read happens this iteration. -/
structure Tick where
  env : Env
  now : ℤ
  rms : ℚ
deriving DecidableEq

/-- The open utterance of `_listen_loop`: the byte buffer (abstracted to the
list of appended chunks, each represented by its RMS) and the counters
`speech_ms`, `silence_ms`, `total_ms`. -/
structure Utterance where
  buffer : List ℚ
  speech_ms : Nat
  silence_ms : Nat
  total_ms : Nat
deriving DecidableEq

/-- Whether the loop is idle (outer loop) or has an utterance open
(inner `while total_ms < MAX_RECORDING_MS` loop). -/
inductive VadPhase
  | idle
  | accumulating (u : Utterance)
deriving DecidableEq

/-- Capture-loop state: the phase plus `_last_processing_time`. -/
structure LoopState where
  phase : VadPhase
  last_processing_time : ℤ
deriving DecidableEq

/-- The loop state at `start_listening` (`_last_processing_time = 0.0`). -/
def vad_init : LoopState := ⟨.idle, 0⟩

/-- The utterance opened when a frame first exceeds the threshold:
`buffer = bytearray(chunk); speech_ms = FRAME_MS; silence_ms = 0;
total_ms = FRAME_MS`. -/
def initUtt (rms : ℚ) : Utterance :=
  ⟨[rms], FRAME_MS, 0, FRAME_MS⟩

/-- The body of the inner accumulation loop for one frame read:
`buffer.extend(chunk); total_ms += FRAME_MS;` then
`if rms < threshold: silence_ms += FRAME_MS else: silence_ms = 0;
speech_ms += FRAME_MS`. -/
def accumStep (thr rms : ℚ) (u : Utterance) : Utterance :=
  if rms < thr then
    ⟨u.buffer ++ [rms], u.speech_ms, u.silence_ms + FRAME_MS, u.total_ms + FRAME_MS⟩
  else
    ⟨u.buffer ++ [rms], u.speech_ms + FRAME_MS, 0, u.total_ms + FRAME_MS⟩

/-- The inner loop's closing condition
`silence_ms >= END_SILENCE_MS and speech_ms >= MIN_SPEECH_MS`. -/
def closesB (u : Utterance) : Bool :=
  decide (END_SILENCE_MS ≤ u.silence_ms) && decide (MIN_SPEECH_MS ≤ u.speech_ms)

/-- One iteration of `_listen_loop`, returning the new state and the
utterance dispatched to `_process_audio` this iteration, if any.

In the `idle` phase this is one pass of the outer `while`: the
`_should_block_listening` check, then the post-processing-cooldown check,
then a frame read and the `rms > threshold` onset test.  In the
`accumulating` phase it is one pass of the inner `while total_ms <
MAX_RECORDING_MS` loop: the `_should_block_listening` check, then a frame
read and counter update; the utterance is handed off as soon as the closing
condition holds (`break`) or the updated `total_ms` reaches
`MAX_RECORDING_MS` (the next `while` test fails), at which point
`_last_processing_time` is set to the current time.  All utterances created
by the loop have `total_ms < MAX_RECORDING_MS` while open, since dispatch
happens the moment the bound is reached. -/
def step (thr : ℚ) (t : Tick) (s : LoopState) : LoopState × Option Utterance :=
  if should_block_listening t.env t.now then (s, none)
  else
    match s.phase with
    | .idle =>
        if t.now - s.last_processing_time < POST_PROCESSING_COOLDOWN_MS then
          (s, none)
        else if thr < t.rms then
          ({ s with phase := .accumulating (initUtt t.rms) }, none)
        else (s, none)
    | .accumulating u =>
        let u' := accumStep thr t.rms u
        if closesB u' || decide (MAX_RECORDING_MS ≤ u'.total_ms) then
          (⟨.idle, t.now⟩, some u')
        else
          ({ s with phase := .accumulating u' }, none)

/-- Run `_listen_loop` over a finite list of iterations, collecting the
dispatched utterances in order. -/
def run (thr : ℚ) : List Tick → LoopState → LoopState × List Utterance
  | [], s => (s, [])
  | t :: ts, s =>
      let p := step thr t s
      let q := run thr ts p.1
      (q.1, p.2.toList ++ q.2)

/-- A tick with playback inactive and the system not paused. -/
def quietTick (now : ℤ) (rms : ℚ) : Tick := ⟨⟨false, 0, false⟩, now, rms⟩

/-- The spec's threshold-125 scenario: 10 frames at RMS 200 followed by
15 frames at RMS 10. -/
def scenario_ticks : List Tick :=
  List.replicate 10 (quietTick 100000 200) ++ List.replicate 15 (quietTick 100000 10)

/-- Ticks carrying 500 frames at RMS 200: speech never pauses, so the closing condition
never holds and `total_ms` reaches `MAX_RECORDING_MS`. -/
def runaway_ticks : List Tick :=
  List.replicate 500 (quietTick 100000 200)

/-- Outcome of `recognizer.recognize_google(audio)` inside
`_process_audio`: recognized text, `sr.UnknownValueError`,
`sr.RequestError`, or any other exception. -/
inductive RecogResult
  | recognized (text : String)
  | unknownValue
  | requestError (msg : String)
  | otherError (msg : String)
deriving DecidableEq

/-- The state `_process_audio` reads and writes: `_last_callback_time`
(initially `0.0`). -/
structure ProcState where
  last_callback_time : ℤ
deriving DecidableEq

/-- Method `VoiceHandlerV2._process_audio`: returns the new state and the text
passed to the user callback, if the callback is invoked.  The blocked
check comes first, then the debounce check against `_last_callback_time`;
only the recognized-nonempty-text-with-callback path updates
`_last_callback_time` (set before `self.callback(text)` runs) and invokes
the callback. -/
def process_audio (env : Env) (hasCallback : Bool) (now : ℤ)
    (recog : RecogResult) (st : ProcState) : ProcState × Option String :=
  if should_block_listening env now then (st, none)
  else if now - st.last_callback_time < DEBOUNCE_MS then (st, none)
  else
    match recog with
    | .recognized text =>
        if !text.isEmpty && hasCallback then (⟨now⟩, some text) else (st, none)
    | .unknownValue => (st, none)
    | .requestError _ => (st, none)
    | .otherError _ => (st, none)

end VoiceV2

namespace Robot

/-- Python's `str.upper()`, as a character map (ASCII commands only are at
stake here). -/
def pyUpper (s : String) : String :=
  ⟨s.data.map Char.toUpper⟩

/-- Python's `str.strip()`: leading and trailing whitespace removed. -/
def pyStrip (s : String) : String :=
  ⟨((s.data.dropWhile Char.isWhitespace).reverse.dropWhile Char.isWhitespace).reverse⟩

/-- Enumeration `ActivityStatus` from `robot_state.py`. -/
inductive ActivityStatus
  | idle
  | listening
  | thinking
  | speaking
  | paused
  | error
deriving DecidableEq

/-- Dataclass `ConversationEntry` from `robot_state.py`. -/
structure ConversationEntry where
  timestamp : String
  user_input : String
  robot_response : String
  emotional_state : String
  processing_time : ℚ
  context : Option String
deriving DecidableEq

/-- The fields of `RobotState` touched by the global-control path:
the control booleans, the activity status, the conversation/metric fields
cleared by `reset_conversation`, and `last_control_check` (milliseconds). -/
structure RobotState where
  is_paused : Bool
  is_muted : Bool
  should_quit : Bool
  current_activity : ActivityStatus
  conversation_history : List ConversationEntry
  current_context : String
  total_interactions : Nat
  successful_interactions : Nat
  failed_interactions : Nat
  total_processing_time : ℚ
  avg_response_time : ℚ
  last_control_check : ℤ
deriving DecidableEq

/-- Interval `control_check_interval = 0.5` s, in milliseconds. -/
def control_check_interval : ℤ := 500

/-- Method `RobotState.toggle_pause` (the `voice_handler.pause_listening()` /
`resume_listening()` notification is an effect on the voice handler, not
on this state). -/
def toggle_pause (s : RobotState) : RobotState :=
  let s' := { s with is_paused := !s.is_paused }
  if s'.is_paused then { s' with current_activity := .paused }
  else { s' with current_activity := .idle }

/-- Method `RobotState.toggle_mute`. -/
def toggle_mute (s : RobotState) : RobotState :=
  { s with is_muted := !s.is_muted }

/-- Method `RobotState.reset_conversation`. -/
def reset_conversation (s : RobotState) : RobotState :=
  { s with
    conversation_history := []
    current_context := ""
    total_interactions := 0
    successful_interactions := 0
    failed_interactions := 0
    total_processing_time := 0
    avg_response_time := 0 }

/-- Method `RobotState._process_global_command`. -/
def process_global_command (command : String) (s : RobotState) : RobotState :=
  if command = "PAUSE" then
    if !s.is_paused then toggle_pause s else s
  else if command = "UNPAUSE" then
    if s.is_paused then toggle_pause s else s
  else if command = "MUTE" then
    if !s.is_muted then toggle_mute s else s
  else if command = "UNMUTE" then
    if s.is_muted then toggle_mute s else s
  else if command = "RESET" then
    reset_conversation s
  else if command = "QUIT" then
    { s with should_quit := true }
  else s

/-- Method `RobotState.check_global_controls`: `file` is the control file's
content (`none` when `os.path.exists` is false).  Returns the new state and
the new file content.  Within the poll interval nothing happens; otherwise
`last_control_check` is updated, the content is read, stripped and
uppercased, and a non-empty command clears the file first and is processed
afterwards. -/
def check_global_controls (now : ℤ) (file : Option String) (s : RobotState) :
    RobotState × Option String :=
  if now - s.last_control_check < control_check_interval then (s, file)
  else
    let s1 := { s with last_control_check := now }
    match file with
    | none => (s1, none)
    | some content =>
        let command := pyUpper (pyStrip content)
        if command.isEmpty then (s1, some content)
        else (process_global_command command s1, some "")

end Robot

namespace VoiceV2

/-- Device metadata from `pyaudio.get_device_info_by_index`. -/
structure DeviceInfo where
  index : Nat
  maxInputChannels : Nat
  defaultSampleRate : Nat
deriving DecidableEq

/-- The audio environment `_init_stream` probes: the configured
`Config.MICROPHONE_INDEX` and `Config.SAMPLE_RATE`, the device table in
enumeration order, the default input device (`none` when
`get_default_input_device_info` raises), and which
`(device_index, rate, channels)` triples `self.audio.open` accepts
(`device_index = none` means no `input_device_index` argument). -/
structure AudioSystem where
  micIndex : Option Nat
  configRate : Nat
  devices : List DeviceInfo
  defaultInput : Option DeviceInfo
  opens : Option Nat → Nat → Nat → Bool

/-- The `device_candidates` list built at the top of `_init_stream`:
the configured index if set, then the default input device's index if
obtainable and not already present, and `[none]` only when the list would
otherwise be empty. -/
def device_candidates (sys : AudioSystem) : List (Option Nat) :=
  let c1 : List (Option Nat) :=
    match sys.micIndex with
    | some i => [some i]
    | none => []
  let c2 : List (Option Nat) :=
    match sys.defaultInput with
    | some d => if c1.contains (some d.index) then c1 else c1 ++ [some d.index]
    | none => c1
  if c2.isEmpty then [none] else c2

/-- The `info` lookup inside the candidate loop
(`get_device_info_by_index(device_index)` when an index is given, else
`get_default_input_device_info()`). -/
def lookup_info (sys : AudioSystem) : Option Nat → Option DeviceInfo
  | some i => sys.devices.find? (fun d => d.index == i)
  | none => sys.defaultInput

/-- Order-preserving deduplication keeping first occurrences
(`list(dict.fromkeys(...))`). -/
def dedupFirst (l : List Nat) : List Nat :=
  l.foldl (fun acc x => if acc.contains x then acc else acc ++ [x]) []

/-- The list `rate_options = list(dict.fromkeys([Config.SAMPLE_RATE, default_rate,
16000, 44100, 48000]))` where `default_rate` falls back to
`Config.SAMPLE_RATE` when no device info is available. -/
def rate_options (sys : AudioSystem) (info : Option DeviceInfo) : List Nat :=
  dedupFirst
    [sys.configRate, (info.map DeviceInfo.defaultSampleRate).getD sys.configRate,
      16000, 44100, 48000]

/-- The list `channel_options = [1]`, plus `2` when the device reports at least two
input channels. -/
def channel_options (maxCh : Nat) : List Nat :=
  if 2 ≤ maxCh then [1, 2] else [1]

/-- The rate-major `for rate in rate_options: for ch in channel_options`
search of one candidate device in isolation: the first combination (with
the `ch > max_channels` skip) that `self.audio.open` accepts.  This is how
a candidate behaves when no stream is bound yet; see `try_rates` for the
stream-threading behaviour of the actual loop. -/
def find_combo (sys : AudioSystem) (dev : Option Nat) : Option (Nat × Nat) :=
  let info := lookup_info sys dev
  let maxCh := (info.map DeviceInfo.maxInputChannels).getD 1
  ((rate_options sys info).flatMap
      (fun r => (channel_options maxCh).map (fun c => (r, c)))).find?
    (fun rc => decide (rc.2 ≤ maxCh) && sys.opens dev rc.1 rc.2)

/-- The inner `for rate in rate_options:` loop of `_init_stream` for one
candidate device, threading the currently bound stream `s`: for each rate
the `for ch in channel_options:` loop (with the `ch > max_channels` skip)
tries `self.audio.open`, and the first success rebinds the stream and
breaks the channel loop; after the channel loop, `if self.stream: break`
leaves the rate loop whenever any stream is bound — including one bound by
an earlier candidate, so with a stream already bound only the first rate
option is probed, and a success there rebinds the session. -/
def try_rates (sys : AudioSystem) (dev : Option Nat) (maxCh : Nat)
    (chans : List Nat) :
    List Nat → Option (Option Nat × Nat × Nat) → Option (Option Nat × Nat × Nat)
  | [], s => s
  | r :: rs, s =>
      let s' :=
        match chans.find? (fun c => decide (c ≤ maxCh) && sys.opens dev r c) with
        | some c => some (dev, r, c)
        | none => s
      if s'.isSome then s' else try_rates sys dev maxCh chans rs s'

/-- One iteration of the `for device_index in device_candidates:` loop of
`_init_stream`, carrying the stream bound so far. -/
def probe_device (sys : AudioSystem) (s : Option (Option Nat × Nat × Nat))
    (dev : Option Nat) : Option (Option Nat × Nat × Nat) :=
  let info := lookup_info sys dev
  let maxCh := (info.map DeviceInfo.maxInputChannels).getD 1
  try_rates sys dev maxCh (channel_options maxCh) (rate_options sys info) s

/-- Method `VoiceHandlerV2._init_stream`: the device loop has no break
after a successful open, so every candidate is visited and a later success
rebinds `self.stream`; the final binding — the last successful open — is
the capture session, and `none` is the fatal `RuntimeError` path. -/
def init_stream (sys : AudioSystem) : Option (Option Nat × Nat × Nat) :=
  (device_candidates sys).foldl (probe_device sys) none

/-- The first enumerated device exposing input channels. -/
def first_input_device (sys : AudioSystem) : Option DeviceInfo :=
  sys.devices.find? (fun d => decide (0 < d.maxInputChannels))

/-- Modelled from the spec: the candidate order the spec states for stream
initialization — explicitly configured device, then the default input
device, then the first device exposing input channels (deduplicated).
This third fallback is absent from `_init_stream`; this definition exists
to compare the spec's selector with the code's. -/
def claimed_candidates (sys : AudioSystem) : List (Option Nat) :=
  let c1 : List (Option Nat) :=
    match sys.micIndex with
    | some i => [some i]
    | none => []
  let c2 : List (Option Nat) :=
    match sys.defaultInput with
    | some d => if c1.contains (some d.index) then c1 else c1 ++ [some d.index]
    | none => c1
  match first_input_device sys with
  | some d => if c2.contains (some d.index) then c2 else c2 ++ [some d.index]
  | none => c2

/-- Modelled from the spec: stream initialization as the spec's sentence
describes it, differing from `init_stream` only in the candidate list. -/
def init_stream_claimed (sys : AudioSystem) : Option (Option Nat × Nat × Nat) :=
  (claimed_candidates sys).findSome?
    (fun dev => (find_combo sys dev).map (fun rc => (dev, rc.1, rc.2)))

/-- A concrete audio environment: no configured index; the default input
device (index 2) rejects every combination; the first input-capable
device (index 1) accepts 16000 Hz mono. -/
def exSys : AudioSystem :=
  ⟨none, 16000,
    [⟨0, 0, 44100⟩, ⟨1, 1, 16000⟩, ⟨2, 1, 48000⟩],
    some ⟨2, 1, 48000⟩,
    fun dev r c => dev == some 1 && r == 16000 && c == 1⟩

/-- A concrete audio environment where two candidates open: the configured
device 7 (probed first) opens at 16000 Hz mono, and so does the default
input device 0, probed after it. -/
def exSys2 : AudioSystem :=
  ⟨some 7, 16000,
    [⟨0, 1, 16000⟩, ⟨7, 1, 16000⟩],
    some ⟨0, 1, 16000⟩,
    fun dev r c => (dev == some 7 || dev == some 0) && r == 16000 && c == 1⟩

end VoiceV2

namespace VoiceV2

/-- The threshold of the spec's worked scenario: noise floor 50 gives
`max(120, 125) = 125`. -/
theorem threshold_fifty : threshold 50 = 125 := by
  norm_num [threshold, BASE_THRESHOLD]

/-- Any utterance dispatched by a single loop iteration met the closing
condition or the recording bound. -/
theorem step_dispatch_sound (thr : ℚ) (t : Tick) (s : LoopState) (u : Utterance)
    (h : (step thr t s).2 = some u) :
    closesB u = true ∨ MAX_RECORDING_MS ≤ u.total_ms := by
  rcases s with ⟨phase, lp⟩
  cases phase with
  | idle =>
      simp only [step] at h
      split_ifs at h
  | accumulating u0 =>
      by_cases hb : should_block_listening t.env t.now = true
      · simp [step, hb] at h
      · by_cases hc : (closesB (accumStep thr t.rms u0)
            || decide (MAX_RECORDING_MS ≤ (accumStep thr t.rms u0).total_ms)) = true
        · have hu : accumStep thr t.rms u0 = u := by
            simp [step, hb, hc] at h
            exact h
          rcases (Bool.or_eq_true _ _).mp hc with h1 | h1
          · exact Or.inl (hu ▸ h1)
          · exact Or.inr (hu ▸ of_decide_eq_true h1)
        · simp [step, hb, hc] at h

/-- Any utterance dispatched along a run met the closing condition or the
recording bound. -/
theorem run_dispatch_sound (thr : ℚ) :
    ∀ (ticks : List Tick) (s : LoopState) (u : Utterance),
      u ∈ (run thr ticks s).2 →
      closesB u = true ∨ MAX_RECORDING_MS ≤ u.total_ms := by
  intro ticks
  induction ticks with
  | nil => intro s u hu; simp [run] at hu
  | cons t ts ih =>
      intro s u hu
      simp only [run, List.mem_append] at hu
      rcases hu with hu | hu
      · rcases ho : (step thr t s).2 with _ | v
        · simp [ho] at hu
        · simp only [ho, Option.toList_some, List.mem_singleton] at hu
          exact hu ▸ step_dispatch_sound thr t s v ho
      · exact ih _ u hu

/-- C1: an utterance is dispatched at a loop iteration iff, after the
frame update, trailing silence has reached `END_SILENCE_MS` with at least
`MIN_SPEECH_MS` of speech, or `total_ms` has reached `MAX_RECORDING_MS`
(force-dispatch); every utterance dispatched along any run satisfies one
of the two; and in the threshold-125 scenario (noise floor 50), 10 frames
at RMS 200 followed by 15 frames at RMS 10 yield exactly one dispatched
utterance, with `speech_ms = 300`. -/
theorem c1_dispatch_iff_closing :
    (∀ (thr : ℚ) (t : Tick) (u : Utterance) (lp : ℤ),
      should_block_listening t.env t.now = false →
      ((step thr t ⟨.accumulating u, lp⟩).2 = some (accumStep thr t.rms u) ↔
        (closesB (accumStep thr t.rms u) = true ∨
          MAX_RECORDING_MS ≤ (accumStep thr t.rms u).total_ms)))
    ∧ (∀ (thr : ℚ) (ticks : List Tick) (s : LoopState) (u : Utterance),
        u ∈ (run thr ticks s).2 →
        closesB u = true ∨ MAX_RECORDING_MS ≤ u.total_ms)
    ∧ threshold 50 = 125
    ∧ ((run (threshold 50) scenario_ticks vad_init).2).map Utterance.speech_ms
        = [300] := by
  refine ⟨?_, fun thr ticks s u => run_dispatch_sound thr ticks s u, threshold_fifty, ?_⟩
  · intro thr t u lp hb
    constructor
    · intro h
      exact step_dispatch_sound thr t ⟨.accumulating u, lp⟩ _ h
    · intro h
      have hc : (closesB (accumStep thr t.rms u)
          || decide (MAX_RECORDING_MS ≤ (accumStep thr t.rms u).total_ms)) = true := by
        rcases h with h | h <;> simp [h]
      simp [step, hb, hc]
  · rw [threshold_fifty]
    decide

/-- C1 witness: a concrete silent frame closing an utterance with 300 ms of
speech and 420 ms of trailing silence is dispatched. -/
theorem c1_dispatch_iff_closing_witness :
    (step 125 (quietTick 100000 10) ⟨.accumulating ⟨[], 300, 390, 700⟩, 0⟩).2 =
      some (accumStep 125 (quietTick 100000 10).rms ⟨[], 300, 390, 700⟩) :=
  (c1_dispatch_iff_closing.1 125 (quietTick 100000 10) ⟨[], 300, 390, 700⟩ 0 rfl).mpr
    (Or.inl (by decide))

set_option maxRecDepth 40000 in
/-- C2 counterexample: from the initial state, 500 consecutive frames at
RMS 200 (threshold 125) reach `MAX_RECORDING_MS` with zero trailing
silence — the closing condition never holds — yet exactly one utterance is
handed off (`speech_ms = 15000`, `silence_ms = 0`, `total_ms = 15000`), so
it is not discarded. -/
theorem c2_counterexample :
    ((run 125 runaway_ticks vad_init).2).map
        (fun u => (u.speech_ms, u.silence_ms, u.total_ms)) = [(15000, 0, 15000)]
    ∧ closesB ⟨[], 15000, 0, 15000⟩ = false := by
  exact ⟨by decide, by decide⟩

/-- C2 (amended): an utterance whose accumulation reaches
`MAX_RECORDING_MS` without the closing condition is not discarded: it is
force-dispatched to the processing step like any other utterance. -/
theorem c2_amended_force_dispatch (thr : ℚ) (t : Tick) (u : Utterance) (lp : ℤ)
    (hb : should_block_listening t.env t.now = false)
    (hm : MAX_RECORDING_MS ≤ (accumStep thr t.rms u).total_ms) :
    (step thr t ⟨.accumulating u, lp⟩).2 = some (accumStep thr t.rms u) := by
  have hc : (closesB (accumStep thr t.rms u)
      || decide (MAX_RECORDING_MS ≤ (accumStep thr t.rms u).total_ms)) = true := by
    simp [hm]
  simp [step, hb, hc]

/-- C2 witness: a concrete frame pushing `total_ms` to 15000 is dispatched. -/
theorem c2_amended_force_dispatch_witness :
    (step 125 (quietTick 100000 200) ⟨.accumulating ⟨[], 14970, 0, 14970⟩, 0⟩).2 =
      some (accumStep 125 (quietTick 100000 200).rms ⟨[], 14970, 0, 14970⟩) :=
  c2_amended_force_dispatch 125 (quietTick 100000 200) ⟨[], 14970, 0, 14970⟩ 0 rfl
    (by decide)

/-- C3: whenever the playback gate is active, or the current time is before
the playback cooldown end, or the system is paused, a loop iteration reads
no frame and changes nothing: the state — including an open utterance's
buffer, `speech_ms`, `silence_ms`, `total_ms` — is returned unchanged and
nothing is dispatched, whatever RMS the tick carries. -/
theorem c3_blocked_preserves_state (thr : ℚ) (t : Tick) (s : LoopState)
    (h : t.env.playback_active = true ∨ t.now < t.env.playback_end_time ∨
      t.env.is_paused = true) :
    step thr t s = (s, none) := by
  have hb : should_block_listening t.env t.now = true := by
    rcases h with h | h | h <;> simp [should_block_listening, h]
  simp [step, hb]

/-- C3 witness: a paused iteration leaves a concrete open utterance intact. -/
theorem c3_blocked_preserves_state_witness :
    step 125 ⟨⟨false, 0, true⟩, 100000, 200⟩
        ⟨.accumulating ⟨[200], 30, 0, 30⟩, 0⟩ =
      (⟨.accumulating ⟨[200], 30, 0, 30⟩, 0⟩, none) :=
  c3_blocked_preserves_state 125 ⟨⟨false, 0, true⟩, 100000, 200⟩
    ⟨.accumulating ⟨[200], 30, 0, 30⟩, 0⟩ (Or.inr (Or.inr rfl))

/-- C4: the detection threshold equals `max(BASE_THRESHOLD, noise_floor ×
2.5)`, and — unblocked and out of cooldown — an idle iteration opens an
utterance iff the frame's RMS is strictly greater than the threshold,
while a frame with RMS ≤ threshold leaves the loop idle and unchanged. -/
theorem c4_threshold_and_onset (nf : ℚ) (t : Tick) (lp : ℤ) :
    threshold nf = max BASE_THRESHOLD (nf * 2.5)
    ∧ (should_block_listening t.env t.now = false →
        POST_PROCESSING_COOLDOWN_MS ≤ t.now - lp →
        (((step (threshold nf) t ⟨.idle, lp⟩).1.phase =
            .accumulating (initUtt t.rms)) ↔ threshold nf < t.rms)
        ∧ (t.rms ≤ threshold nf →
            step (threshold nf) t ⟨.idle, lp⟩ = (⟨.idle, lp⟩, none))) := by
  constructor
  · simp only [threshold]
    rw [max_comm, max_def]
  · intro hb hcd
    have hnc : ¬ (t.now - lp < POST_PROCESSING_COOLDOWN_MS) := not_lt.mpr hcd
    refine ⟨⟨?_, ?_⟩, ?_⟩
    · intro h
      by_contra hgt
      simp [step, hb, hnc, hgt] at h
    · intro h
      simp [step, hb, hnc, h]
    · intro h
      have hng : ¬ (threshold nf < t.rms) := not_lt.mpr h
      simp [step, hb, hnc, hng]

/-- C4 witness: with noise floor 50 the threshold is 125 and a frame at
RMS 200 opens an utterance. -/
theorem c4_threshold_and_onset_witness :
    (step (threshold 50) (quietTick 100000 200) ⟨.idle, 0⟩).1.phase =
      .accumulating (initUtt (quietTick 100000 200).rms) :=
  (((c4_threshold_and_onset 50 (quietTick 100000 200) 0).2 rfl (by decide)).1).mpr
    (by simp only [threshold_fifty]; decide)

/-- Whenever `_process_audio` invokes the callback, the state it leaves
behind records the current time as `_last_callback_time`. -/
theorem process_audio_some (env : Env) (cb : Bool) (now : ℤ) (r : RecogResult)
    (st st' : ProcState) (txt : String)
    (h : process_audio env cb now r st = (st', some txt)) :
    st' = ⟨now⟩ := by
  cases r <;> simp only [process_audio] at h <;> split_ifs at h <;> simp_all

/-- C5: if a processed utterance reaches the dispatch step within the
1000 ms debounce interval of the previous successful callback, it is
silently dropped — the state is unchanged and the callback is not invoked
again — and a successful dispatch records its own time as the
last-callback timestamp before the callback is run. -/
theorem c5_debounce_single_callback (env env2 : Env) (cb cb2 : Bool)
    (now1 now2 : ℤ) (r r2 : RecogResult) (st0 st1 : ProcState) (txt : String)
    (h1 : process_audio env cb now1 r st0 = (st1, some txt))
    (h2 : now2 - now1 < DEBOUNCE_MS) :
    st1.last_callback_time = now1
    ∧ process_audio env2 cb2 now2 r2 st1 = (st1, none) := by
  have hst : st1 = ⟨now1⟩ := process_audio_some env cb now1 r st0 st1 txt h1
  subst hst
  refine ⟨rfl, ?_⟩
  by_cases hb : should_block_listening env2 now2 = true
  · simp [process_audio, hb]
  · have hb' : should_block_listening env2 now2 = false := by
      cases hx : should_block_listening env2 now2
      · rfl
      · exact absurd hx hb
    simp [process_audio, hb', h2]

/-- C5 witness: a successful dispatch at time 2000 stamps the debounce
window, and a second utterance arriving at 2500 is dropped. -/
theorem c5_debounce_single_callback_witness :
    (⟨2000⟩ : ProcState).last_callback_time = 2000
    ∧ process_audio ⟨false, 0, false⟩ true 2500 (.recognized "hello there")
        ⟨2000⟩ = (⟨2000⟩, none) :=
  c5_debounce_single_callback ⟨false, 0, false⟩ ⟨false, 0, false⟩ true true
    2000 2500 (.recognized "hello there") (.recognized "hello there")
    ⟨0⟩ ⟨2000⟩ "hello there" (by decide) (by decide)

/-- C10: if at processing time the playback gate is active, or the current
time is before the playback cooldown end, or the system is paused, then
`_process_audio` returns immediately: no recognition result is delivered,
the callback is not invoked, and the last-callback timestamp is left
unchanged. -/
theorem c10_blocked_processing_drops (env : Env) (cb : Bool) (now : ℤ)
    (r : RecogResult) (st : ProcState)
    (h : env.playback_active = true ∨ now < env.playback_end_time ∨
      env.is_paused = true) :
    process_audio env cb now r st = (st, none) := by
  have hb : should_block_listening env now = true := by
    rcases h with h | h | h <;> simp [should_block_listening, h]
  simp [process_audio, hb]

/-- C10 witness: with the playback gate raised, an utterance whose
recognition would have succeeded is silently discarded. -/
theorem c10_blocked_processing_drops_witness :
    process_audio ⟨true, 0, false⟩ true 5000 (.recognized "hello") ⟨0⟩ =
      (⟨0⟩, none) :=
  c10_blocked_processing_drops ⟨true, 0, false⟩ true 5000 (.recognized "hello")
    ⟨0⟩ (Or.inl rfl)

/-- C7: a control file containing lowercase `quit` is read
case-insensitively as `QUIT` once the poll interval has elapsed:
`should_quit` becomes true and the file is cleared to empty before the
command is applied, so re-polling the cleared file applies no command
again (only `last_control_check` advances). -/
theorem c7_quit_command (s : Robot.RobotState) (now now2 : ℤ)
    (h1 : Robot.control_check_interval ≤ now - s.last_control_check)
    (h2 : Robot.control_check_interval ≤ now2 - now) :
    (Robot.check_global_controls now (some "quit") s).1.should_quit = true
    ∧ (Robot.check_global_controls now (some "quit") s).2 = some ""
    ∧ Robot.check_global_controls now2 (some "")
        (Robot.check_global_controls now (some "quit") s).1 =
      ({ (Robot.check_global_controls now (some "quit") s).1 with
          last_control_check := now2 }, some "") := by
  have hn1 : ¬ (now - s.last_control_check < Robot.control_check_interval) :=
    not_lt.mpr h1
  have hcmd : Robot.pyUpper (Robot.pyStrip "quit") = "QUIT" := by decide
  have hq : "QUIT".isEmpty = false := by decide
  have hstep : Robot.check_global_controls now (some "quit") s =
      ({ s with last_control_check := now, should_quit := true }, some "") := by
    simp [Robot.check_global_controls, Robot.process_global_command, hn1, hcmd, hq]
  have hn2 : ¬ (now2 -
      ({ s with last_control_check := now, should_quit := true } :
        Robot.RobotState).last_control_check < Robot.control_check_interval) := by
    simpa using not_lt.mpr h2
  have hemp : (Robot.pyUpper (Robot.pyStrip "")).isEmpty = true := by decide
  refine ⟨by rw [hstep], by rw [hstep], ?_⟩
  rw [hstep]
  simp [Robot.check_global_controls, hn2, hemp]

/-- C7 witness: from a fresh state, polling a file containing `quit` at
time 1000 sets `should_quit` and clears the file; re-polling at 2000
changes nothing but the poll timestamp. -/
theorem c7_quit_command_witness :
    (Robot.check_global_controls 1000 (some "quit")
        ⟨false, false, false, .idle, [], "", 0, 0, 0, 0, 0, 0⟩).1.should_quit = true
    ∧ (Robot.check_global_controls 1000 (some "quit")
        ⟨false, false, false, .idle, [], "", 0, 0, 0, 0, 0, 0⟩).2 = some ""
    ∧ Robot.check_global_controls 2000 (some "")
        (Robot.check_global_controls 1000 (some "quit")
          ⟨false, false, false, .idle, [], "", 0, 0, 0, 0, 0, 0⟩).1 =
      ({ (Robot.check_global_controls 1000 (some "quit")
            ⟨false, false, false, .idle, [], "", 0, 0, 0, 0, 0, 0⟩).1 with
          last_control_check := 2000 }, some "") :=
  c7_quit_command ⟨false, false, false, .idle, [], "", 0, 0, 0, 0, 0, 0⟩
    1000 2000 (by decide) (by decide)

/-- C8: redundant control commands are no-ops: `PAUSE` while already
paused, `UNPAUSE` while not paused, `MUTE` while already muted and
`UNMUTE` while not muted each leave the whole state unchanged. -/
theorem c8_idempotent_controls (s : Robot.RobotState) :
    (s.is_paused = true → Robot.process_global_command "PAUSE" s = s)
    ∧ (s.is_paused = false → Robot.process_global_command "UNPAUSE" s = s)
    ∧ (s.is_muted = true → Robot.process_global_command "MUTE" s = s)
    ∧ (s.is_muted = false → Robot.process_global_command "UNMUTE" s = s) := by
  refine ⟨?_, ?_, ?_, ?_⟩ <;> intro h <;> simp [Robot.process_global_command, h]

/-- C8 witness: the four redundant commands applied to concrete states. -/
theorem c8_idempotent_controls_witness :
    Robot.process_global_command "PAUSE"
        (⟨true, true, false, .paused, [], "", 0, 0, 0, 0, 0, 0⟩ : Robot.RobotState) =
      ⟨true, true, false, .paused, [], "", 0, 0, 0, 0, 0, 0⟩
    ∧ Robot.process_global_command "UNPAUSE"
        (⟨false, false, false, .idle, [], "", 0, 0, 0, 0, 0, 0⟩ : Robot.RobotState) =
      ⟨false, false, false, .idle, [], "", 0, 0, 0, 0, 0, 0⟩
    ∧ Robot.process_global_command "MUTE"
        (⟨true, true, false, .paused, [], "", 0, 0, 0, 0, 0, 0⟩ : Robot.RobotState) =
      ⟨true, true, false, .paused, [], "", 0, 0, 0, 0, 0, 0⟩
    ∧ Robot.process_global_command "UNMUTE"
        (⟨false, false, false, .idle, [], "", 0, 0, 0, 0, 0, 0⟩ : Robot.RobotState) =
      ⟨false, false, false, .idle, [], "", 0, 0, 0, 0, 0, 0⟩ :=
  ⟨(c8_idempotent_controls _).1 rfl, (c8_idempotent_controls _).2.1 rfl,
    (c8_idempotent_controls _).2.2.1 rfl, (c8_idempotent_controls _).2.2.2 rfl⟩

/-- C9: a frame whose RMS exactly equals the threshold is asymmetric: from
idle it does not open an utterance (onset needs a strictly greater RMS),
but inside an open utterance it counts as speech — silence is reset to 0
and `speech_ms` grows by one frame — because the silence branch needs a
strictly smaller RMS. -/
theorem c9_equal_rms_boundary (nf : ℚ) (t : Tick) (lp : ℤ) (u : Utterance)
    (he : t.rms = threshold nf) :
    (should_block_listening t.env t.now = false →
      POST_PROCESSING_COOLDOWN_MS ≤ t.now - lp →
      step (threshold nf) t ⟨.idle, lp⟩ = (⟨.idle, lp⟩, none))
    ∧ (accumStep (threshold nf) t.rms u).silence_ms = 0
    ∧ (accumStep (threshold nf) t.rms u).speech_ms = u.speech_ms + FRAME_MS := by
  have hnlt : ¬ (t.rms < threshold nf) := by rw [he]; exact lt_irrefl _
  have hngt : ¬ (threshold nf < t.rms) := by rw [he]; exact lt_irrefl _
  refine ⟨?_, ?_, ?_⟩
  · intro hb hcd
    have hnc := not_lt.mpr hcd
    simp [step, hb, hnc, hngt]
  · simp [accumStep, hnlt]
  · simp [accumStep, hnlt]

/-- C9 witness: at noise floor 50 (threshold 125) a frame at RMS exactly
125 leaves idle unchanged, yet inside an utterance resets silence and
adds 30 ms of speech. -/
theorem c9_equal_rms_boundary_witness :
    step (threshold 50) (quietTick 100000 125) ⟨.idle, 0⟩ = (⟨.idle, 0⟩, none)
    ∧ (accumStep (threshold 50) (quietTick 100000 125).rms
        ⟨[200], 30, 0, 30⟩).silence_ms = 0
    ∧ (accumStep (threshold 50) (quietTick 100000 125).rms
        ⟨[200], 30, 0, 30⟩).speech_ms = 30 + FRAME_MS :=
  ⟨(c9_equal_rms_boundary 50 (quietTick 100000 125) 0 ⟨[200], 30, 0, 30⟩
      (by simp only [threshold_fifty]; rfl)).1 rfl (by decide),
    (c9_equal_rms_boundary 50 (quietTick 100000 125) 0 ⟨[200], 30, 0, 30⟩
      (by simp only [threshold_fifty]; rfl)).2.1,
    (c9_equal_rms_boundary 50 (quietTick 100000 125) 0 ⟨[200], 30, 0, 30⟩
      (by simp only [threshold_fifty]; rfl)).2.2⟩

/-- With a stream already bound, one candidate's rate loop inspects only
its first rate option: a successful channel there rebinds the session,
and otherwise the previously bound session is kept, later rates never
being tried (the trailing `if self.stream: break`). -/
theorem try_rates_bound (sys : AudioSystem) (dev : Option Nat) (maxCh : Nat)
    (chans : List Nat) (r : Nat) (rs : List Nat)
    (sess : Option Nat × Nat × Nat) :
    try_rates sys dev maxCh chans (r :: rs) (some sess) =
      match chans.find? (fun c => decide (c ≤ maxCh) && sys.opens dev r c) with
      | some c => some (dev, r, c)
      | none => some sess := by
  rcases hf : chans.find? (fun c => decide (c ≤ maxCh) && sys.opens dev r c) with _ | c <;>
    simp [try_rates, hf]

/-- A session produced by one candidate's rate loop is either the session
that was already bound, or an opening combination of that candidate. -/
theorem try_rates_sound (sys : AudioSystem) (dev0 : Option Nat) (maxCh : Nat)
    (chans : List Nat) :
    ∀ (rates : List Nat) (s : Option (Option Nat × Nat × Nat))
      (dev : Option Nat) (r c : Nat),
      try_rates sys dev0 maxCh chans rates s = some (dev, r, c) →
      s = some (dev, r, c) ∨ (dev = dev0 ∧ sys.opens dev0 r c = true) := by
  intro rates
  induction rates with
  | nil =>
      intro s dev r c h
      exact Or.inl (by simpa [try_rates] using h)
  | cons r0 rs ih =>
      intro s dev r c h
      rcases hf : chans.find? (fun c => decide (c ≤ maxCh) && sys.opens dev0 r0 c)
        with _ | c0
      · cases s with
        | some sess =>
            exact Or.inl (by simpa [try_rates, hf] using h)
        | none =>
            have h' : try_rates sys dev0 maxCh chans rs none = some (dev, r, c) := by
              simpa [try_rates, hf] using h
            rcases ih none dev r c h' with h1 | h1
            · exact absurd h1 (by simp)
            · exact Or.inr h1
      · obtain ⟨hd, hr, hc⟩ : dev0 = dev ∧ r0 = r ∧ c0 = c := by
          simpa [try_rates, hf] using h
        subst hd hr hc
        have hp := List.find?_some hf
        exact Or.inr ⟨rfl, ((Bool.and_eq_true _ _).mp hp).2⟩

/-- A candidate's rate loop never unbinds a bound stream. -/
theorem try_rates_isSome (sys : AudioSystem) (dev : Option Nat) (maxCh : Nat)
    (chans : List Nat) :
    ∀ (rates : List Nat) (s : Option (Option Nat × Nat × Nat)),
      s.isSome = true →
      (try_rates sys dev maxCh chans rates s).isSome = true := by
  intro rates
  induction rates with
  | nil =>
      intro s h
      simpa [try_rates] using h
  | cons r0 rs ih =>
      intro s h
      rcases hf : chans.find? (fun c => decide (c ≤ maxCh) && sys.opens dev r0 c)
        with _ | c0 <;> simp [try_rates, hf, h]

/-- Probing a candidate never unbinds a bound stream. -/
theorem probe_device_isSome (sys : AudioSystem) (dev : Option Nat)
    (s : Option (Option Nat × Nat × Nat)) (h : s.isSome = true) :
    (probe_device sys s dev).isSome = true :=
  try_rates_isSome sys dev _ _ _ s h

/-- Starting unbound, a candidate's rate loop fails iff every rate option
has no opening channel. -/
theorem try_rates_none_iff (sys : AudioSystem) (dev : Option Nat) (maxCh : Nat)
    (chans : List Nat) :
    ∀ rates : List Nat,
      try_rates sys dev maxCh chans rates none = none ↔
        ∀ r ∈ rates,
          chans.find? (fun c => decide (c ≤ maxCh) && sys.opens dev r c) = none := by
  intro rates
  induction rates with
  | nil => simp [try_rates]
  | cons r0 rs ih =>
      rcases hf : chans.find? (fun c => decide (c ≤ maxCh) && sys.opens dev r0 c)
        with _ | c0
      · have hl : try_rates sys dev maxCh chans (r0 :: rs) none =
            try_rates sys dev maxCh chans rs none := by
          simp [try_rates, hf]
        rw [hl, ih, List.forall_mem_cons]
        exact ⟨fun h => ⟨hf, h⟩, fun h => h.2⟩
      · constructor
        · intro h
          simp [try_rates, hf] at h
        · intro h
          rw [h r0 (List.mem_cons_self r0 rs)] at hf
          exact Option.noConfusion hf

/-- Starting unbound, a candidate's probe fails iff its isolated
rate-major search fails. -/
theorem probe_device_none_iff (sys : AudioSystem) (dev : Option Nat) :
    probe_device sys none dev = none ↔ find_combo sys dev = none := by
  simp only [probe_device]
  rw [try_rates_none_iff]
  simp only [find_combo]
  constructor
  · intro h
    apply List.find?_eq_none.mpr
    intro rc hrc
    rcases List.mem_flatMap.mp hrc with ⟨r, hr, hc⟩
    rcases List.mem_map.mp hc with ⟨c, hcmem, rfl⟩
    intro hp
    exact absurd hp (by simpa using List.find?_eq_none.mp (h r hr) c hcmem)
  · intro h r hr
    apply List.find?_eq_none.mpr
    intro c hc
    have hm := List.find?_eq_none.mp h (r, c)
      (List.mem_flatMap.mpr ⟨r, hr, List.mem_map.mpr ⟨c, hc, rfl⟩⟩)
    simpa using hm

/-- A session produced by the device loop is an opening combination of one
of the visited candidates. -/
theorem foldl_probe_sound (sys : AudioSystem) :
    ∀ (devs : List (Option Nat)) (s : Option (Option Nat × Nat × Nat))
      (dev : Option Nat) (r c : Nat),
      devs.foldl (probe_device sys) s = some (dev, r, c) →
      s = some (dev, r, c) ∨ (sys.opens dev r c = true ∧ dev ∈ devs) := by
  intro devs
  induction devs with
  | nil =>
      intro s dev r c h
      exact Or.inl (by simpa using h)
  | cons d ds ih =>
      intro s dev r c h
      simp only [List.foldl_cons] at h
      rcases ih _ dev r c h with h1 | h1
      · rcases try_rates_sound sys d _ _ _ _ dev r c
          (by simpa [probe_device] using h1) with h2 | ⟨hdev, h2⟩
        · exact Or.inl h2
        · exact Or.inr ⟨hdev ▸ h2, by simp [hdev]⟩
      · exact Or.inr ⟨h1.1, by simp [h1.2]⟩

/-- The device loop never unbinds a bound stream. -/
theorem foldl_probe_isSome (sys : AudioSystem) :
    ∀ (devs : List (Option Nat)) (s : Option (Option Nat × Nat × Nat)),
      s.isSome = true →
      (devs.foldl (probe_device sys) s).isSome = true := by
  intro devs
  induction devs with
  | nil =>
      intro s h
      simpa using h
  | cons d ds ih =>
      intro s h
      simpa using ih _ (probe_device_isSome sys d s h)

/-- The device loop from an unbound stream fails iff every visited
candidate's probe fails from unbound. -/
theorem foldl_probe_none_iff (sys : AudioSystem) :
    ∀ devs : List (Option Nat),
      devs.foldl (probe_device sys) none = none ↔
        ∀ dev ∈ devs, probe_device sys none dev = none := by
  intro devs
  induction devs with
  | nil => simp
  | cons d ds ih =>
      simp only [List.foldl_cons, List.forall_mem_cons]
      rcases hp : probe_device sys none d with _ | sess
      · simp [ih]
      · constructor
        · intro h
          have hs := foldl_probe_isSome sys ds (some sess) rfl
          rw [h] at hs
          simp at hs
        · intro h
          exact absurd h.1 (by simp)

/-- C6 counterexample: two concrete environments refute the claim.  In
`exSys` there is no configured index, the default input device (index 2)
rejects every rate/channel combination, and the first device exposing
input channels (index 1) would open at 16000 Hz mono: `_init_stream`
fails fatally (its candidates are only the default device) while the
selector the claim describes succeeds through the
first-input-capable-device fallback.  In `exSys2` the configured device 7
— the first candidate — opens at 16000 Hz mono, yet the session is the
default device 0's, because the device loop has no break after a success
and the later candidate's open rebinds the stream: the first opening
combination does not become the capture session. -/
theorem c6_counterexample :
    init_stream exSys = none
    ∧ exSys.opens (some 1) 16000 1 = true
    ∧ first_input_device exSys = some ⟨1, 1, 16000⟩
    ∧ init_stream_claimed exSys = some (some 1, 16000, 1)
    ∧ device_candidates exSys2 = [some 7, some 0]
    ∧ exSys2.opens (some 7) 16000 1 = true
    ∧ init_stream exSys2 = some (some 0, 16000, 1) :=
  ⟨by decide, by decide, by decide, by decide, by decide, by decide, by decide⟩

/-- C6 (amended): stream initialization's candidates are only the
explicitly configured device followed by the default input device
(deduplicated; a bare default-device attempt stands in when neither is
available) — there is no fallback scanning for the first device exposing
input channels.  Each candidate is probed rate-major over the deduplicated
rates {configured, device-default, 16000, 44100, 48000} crossed with
channels {1, plus 2 when the device reports ≥ 2 input channels}, stopping
that candidate's probe at its first successful open; but a success does
not stop the device loop: each later candidate is still probed (only its
first rate option once a stream is bound), and a success there rebinds the
stream, so the last successful open — not the first — becomes the capture
session.  A session is always an opening combination of some candidate,
and startup fails fatally iff every candidate's search fails. -/
theorem c6_amended_device_search :
    (∀ (sys : AudioSystem) (i : Nat) (d : DeviceInfo),
      sys.micIndex = some i → sys.defaultInput = some d → d.index ≠ i →
      device_candidates sys = [some i, some d.index])
    ∧ (∀ (sys : AudioSystem) (dev : Option Nat) (r c : Nat),
        init_stream sys = some (dev, r, c) →
        sys.opens dev r c = true ∧ dev ∈ device_candidates sys)
    ∧ (∀ sys : AudioSystem,
        (init_stream sys = none ↔
          ∀ dev ∈ device_candidates sys, find_combo sys dev = none))
    ∧ (∀ (sys : AudioSystem) (dev : Option Nat) (maxCh : Nat)
        (chans : List Nat) (r : Nat) (rs : List Nat)
        (sess : Option Nat × Nat × Nat),
        try_rates sys dev maxCh chans (r :: rs) (some sess) =
          match chans.find? (fun c => decide (c ≤ maxCh) && sys.opens dev r c) with
          | some c => some (dev, r, c)
          | none => some sess)
    ∧ device_candidates exSys2 = [some 7, some 0]
    ∧ exSys2.opens (some 7) 16000 1 = true
    ∧ init_stream exSys2 = some (some 0, 16000, 1) := by
  refine ⟨?_, ?_, ?_, try_rates_bound, by decide, by decide, by decide⟩
  · intro sys i d hmi hdi hne
    simp [device_candidates, hmi, hdi, hne]
  · intro sys dev r c h
    rcases foldl_probe_sound sys (device_candidates sys) none dev r c
      (by simpa [init_stream] using h) with h1 | h1
    · simp at h1
    · exact h1
  · intro sys
    rw [init_stream, foldl_probe_none_iff]
    constructor
    · intro h dev hdev
      exact (probe_device_none_iff sys dev).mp (h dev hdev)
    · intro h dev hdev
      exact (probe_device_none_iff sys dev).mpr (h dev hdev)

/-- C6 witness: with a configured index 5 and default input device 0, the
candidate list is exactly configured-then-default. -/
theorem c6_amended_device_search_witness :
    device_candidates
        ⟨some 5, 16000, [], some ⟨0, 1, 44100⟩, fun _ _ _ => false⟩ =
      [some 5, some 0] :=
  c6_amended_device_search.1
    ⟨some 5, 16000, [], some ⟨0, 1, 44100⟩, fun _ _ _ => false⟩
    5 ⟨0, 1, 44100⟩ rfl rfl (by decide)

end VoiceV2
